import Mathlib

/-!
Shallow embedding of the prusaCam timelapse control and camera-arbitration
subsystem (Go sources: prusaLinkClient client, camera/rpi_camera.go,
camera/rpi_timelapse.go), together with theorems settling the frozen claims
about it.

Modelling conventions:
* Go `float64` fields (job progress) are modelled as `ℚ`; only comparison
  with zero and zero-initialisation occur in the modelled code.
* Go `time.Time` values are modelled as `Int` (unix seconds / micros).
* Fallible calls return `Option`/explicit outcome inductives; the remote
  HTTP interaction, directory listings, and process-spawn outcomes are
  supplied as oracle inputs to the (otherwise deterministic) functions.
* Go `string` is modelled as `String`; helpers are written over `String.data`
  so that all definitions reduce in the kernel.
-/

namespace PrusaCam

/-- strings.HasSuffix, written over the character list so it kernel-reduces. -/
def hasSuffix (s sfx : String) : Bool :=
  sfx.data.isSuffixOf s.data

/-- Lexicographic order on character lists by code point; on the ASCII
names this code produces it coincides with Go's bytewise string order. -/
def charListLt : List Char → List Char → Bool
  | [], [] => false
  | [], _ :: _ => true
  | _ :: _, [] => false
  | a :: as, b :: bs =>
    if a.toNat < b.toNat then true
    else if a.toNat = b.toNat then charListLt as bs
    else false

/-- Go string comparison `a < b` (bytewise lexicographic; the directory
listings os.ReadDir returns are sorted by it). -/
def stringLt (a b : String) : Bool :=
  charListLt a.data b.data

/-- Go string comparison `a <= b`. -/
def stringLe (a b : String) : Bool :=
  stringLt a b || a == b

/-- Printer state constants from the prusaLinkClient package. -/
def StatusIdle : String := "IDLE"

def StatusBusy : String := "BUSY"

def StatusPrinting : String := "PRINTING"

def StatusPaused : String := "PAUSED"

def StatusFinished : String := "FINISHED"

def StatusStopped : String := "STOPPED"

def StatusError : String := "ERROR"

def StatusAttention : String := "ATTENTION"

def StatusReady : String := "READY"

/-- The Status struct of prusaLinkClient: one poll's snapshot of the printer. -/
structure Status where
  online : Bool
  jobID : Int
  fileName : String
  state : String
  progress : ℚ
deriving DecidableEq

/-- The zero value of the Status struct (Go `&Status{}` / `Status{Online: false}`). -/
def zeroStatus : Status :=
  { online := false, jobID := 0, fileName := "", state := "", progress := 0 }

/-- Parsed body of a 200 response (jobResponse struct after json.Unmarshal). -/
structure JobResponse where
  id : Int
  state : String
  progress : ℚ
  fileDisplayName : String
deriving DecidableEq

/-- Outcome of the HTTP exchange inside client.jobStatus, supplied as an
oracle: the request can time out (context.DeadlineExceeded), fail with
another transport error, fail while reading the body, or return a status
code; for a 200 the JSON-parse outcome of the body is included
(`Except.error` = json.Unmarshal failure). -/
inductive HTTPOutcome
  | timeout
  | transportErr
  | bodyReadErr
  | resp (code : Nat) (parsed : Except Unit JobResponse)

/-- client.jobStatus of prusaLinkClient: turns the HTTP outcome into
`(Status, error)`, modelled as `Except Unit Status`.  A timeout yields
`Status{Online:false}` with nil error; 204 yields an online FINISHED
status; any other non-200 code or failure is an error. -/
def jobStatus (r : HTTPOutcome) : Except Unit Status :=
  match r with
  | .timeout => .ok zeroStatus
  | .transportErr => .error ()
  | .bodyReadErr => .error ()
  | .resp code parsed =>
    if code = 200 then
      match parsed with
      | .error _ => .error ()
      | .ok j =>
        .ok { online := true, jobID := j.id, fileName := j.fileDisplayName,
              state := j.state, progress := j.progress }
    else if code = 204 then
      .ok { online := true, jobID := 0, fileName := "",
            state := StatusFinished, progress := 0 }
    else
      .error ()

/-- The client's cache fields (cachedStatus, cachedTime) guarded by its mutex. -/
structure ClientCache where
  cachedStatus : Option Status
  cachedTime : Int
deriving DecidableEq

/-- The zero value of the client cache (fresh client). -/
def emptyCache : ClientCache := { cachedStatus := none, cachedTime := 0 }

/-- client.jobStatusFromCache: evicts the entry when
`cachedTime.Before(now.Add(10s))`, i.e. when `cachedTime < now + 10`,
then returns the (possibly cleared) entry and whether it is non-nil. -/
def jobStatusFromCache (c : ClientCache) (now : Int) : ClientCache × Option Status :=
  let c' := if c.cachedTime < now + 10 then { c with cachedStatus := none } else c
  (c', c'.cachedStatus)

/-- client.jobStatusToCache: overwrites the single-entry cache wholesale. -/
def jobStatusToCache (st : Status) (now : Int) : ClientCache :=
  { cachedStatus := some st, cachedTime := now }

/-- Result of one client.JobStatus call: the new cache state, the returned
`(Status, error)`, and whether the remote (client.jobStatus) was invoked. -/
structure JobStatusCall where
  cache : ClientCache
  result : Except Unit Status
  remoteCalled : Bool

/-- client.JobStatus of prusaLinkClient: serve from cache when
jobStatusFromCache reports a hit; otherwise issue the remote call
(outcome supplied as `remote`), propagate errors, and cache successes. -/
def JobStatus (c : ClientCache) (now : Int) (remote : HTTPOutcome) : JobStatusCall :=
  match jobStatusFromCache c now with
  | (c', some st) => { cache := c', result := .ok st, remoteCalled := false }
  | (c', none) =>
    match jobStatus remote with
    | .error e => { cache := c', result := .error e, remoteCalled := true }
    | .ok st => { cache := jobStatusToCache st now, result := .ok st, remoteCalled := true }

/-! Camera package: the timelapse state machine (rpi_timelapse.go) and the
snapshot path (rpi_camera.go). -/

/-- timelapseShouldStart: printer in PRINTING or ATTENTION state. -/
def timelapseShouldStart (state : String) : Bool :=
  state == StatusPrinting || state == StatusAttention

/-- timelapseShouldBeRunning: the states under which a timelapse keeps going. -/
def timelapseShouldBeRunning (state : String) : Bool :=
  timelapseShouldStart state || state == StatusPaused || state == StatusBusy

/-- timelapseShouldStop: the STOP classification set. -/
def timelapseShouldStop (state : String) : Bool :=
  state == StatusIdle ||
    state == StatusError ||
    state == StatusFinished ||
    state == StatusStopped ||
    state == StatusReady

/-- The jobName helper: the job's file name, falling back to the job id. -/
def jobName (f : Status) : String :=
  if f.fileName ≠ "" then f.fileName else toString f.jobID

/-- One entry of an os.ReadDir listing: name and whether Type().IsDir(). -/
structure DirEntry where
  name : String
  isDir : Bool
deriving DecidableEq

/-- Outcome of lastTLShotInternal: the joined path of the selected frame
together with len(files), or one of its two error returns, or the Go
runtime panic the loop can hit by indexing files[len(files)]. -/
inductive ScanResult
  | found (path : String) (count : Nat)
  | errReadDir
  | errNoShots
  | panicIndexOutOfRange
deriving DecidableEq

/-- The scanning loop of lastTLShotInternal, `for i := len(files)-1; i >= 0; i++`.
The loop is entered at i = len(files)-1 and i only increments, so position i
corresponds to `rest = files.drop i`; `rest = []` is i = len(files), where
`files[i]` panics with index out of range.  A hit returns
filepath.Join(dir, name) and len(files). -/
def lastTLShotLoop (dir : String) (total : Nat) (rest : List DirEntry) : ScanResult :=
  match rest with
  | [] => .panicIndexOutOfRange
  | e :: rest' =>
    if !e.isDir && hasSuffix e.name ".jpg" then
      .found (dir ++ "/" ++ e.name) total
    else
      lastTLShotLoop dir total rest'

/-- lastTLShotInternal: reads the directory (oracle `readDir`, `none` =
os.ReadDir error), then runs the scan loop from index len(files)-1; with an
empty listing the loop condition i >= 0 fails at once and the "no timelapse
shots found" error is returned. -/
def lastTLShotInternal (dir : String) (readDir : Option (List DirEntry)) : ScanResult :=
  match readDir with
  | none => .errReadDir
  | some files =>
    if files.length = 0 then .errNoShots
    else lastTLShotLoop dir files.length (files.drop (files.length - 1))

/-- The last '/'-separated component of a path (filepath.Base on the
slash-joined, non-empty, no-trailing-slash paths this code produces). -/
def filepathBase (p : String) : String :=
  ⟨(p.data.reverse.takeWhile (fun c => c ≠ '/')).reverse⟩

/-- getShotID: fmt.Sscanf(filepath.Base(name), "image%6d.jpg", &id).  The
verb skips leading spaces, consumes at most 6 digits, and the rest of the
input must be ".jpg"; on a scan failure the Go error is returned (`none`). -/
def getShotID (name : String) : Option Int :=
  let base := (filepathBase name).data
  if "image".data.isPrefixOf base then
    let rest := (base.drop 5).dropWhile (fun c => c = ' ')
    let ds := (rest.takeWhile (fun c => c.isDigit)).take 6
    if ds.length = 0 then none
    else if rest.drop ds.length = ".jpg".data then
      some (ds.foldl (fun acc c => acc * 10 + ((c.toNat : Int) - 48)) 0)
    else none
  else none

/-- Decimal rendering of a Go int (fmt %d). -/
def intDecimal (n : Int) : String :=
  if n < 0 then "-" ++ (-n).toNat.repr else n.toNat.repr

/-- fmt "%6d" / "%06d" style padding of an integer to a minimum width. -/
def padNum (fill : Char) (w : Nat) (n : Int) : String :=
  let s := intDecimal n
  ⟨List.replicate (w - s.length) fill ++ s.data⟩

/-- shotFilename: fmt.Sprintf("%s/image%6d.jpg", dir, id) — note the
space-padded %6d verb, with no zero flag. -/
def shotFilename (dir : String) (id : Int) : String :=
  dir ++ "/image" ++ padNum ' ' 6 id ++ ".jpg"

/-- Name of frame `id` as written by the continuous capture process, whose
output pattern is filepath.Join(tmpDir, "/image%06d.jpg") (C-printf
zero-padded %06d expanded by rpicam-still). -/
def captureFrameName (id : Int) : String :=
  "image" ++ padNum '0' 6 id ++ ".jpg"

/-- The destination filenames of the cp loop in takeLastShot:
`for i := lastID; i < lastID+count+1; i++ { cp name shotFilename(dir, i) }`. -/
def takeLastShotNames (dir : String) (lastID : Int) (count : Nat) : List String :=
  (List.range (count + 1)).map (fun k => shotFilename dir (lastID + k))

/-- The timelapse session record (timelapse struct); the cancellation handle
and exec.Cmd are process handles with no observable state of their own and
are not modelled. -/
structure Timelapse where
  currentDir : String
  startTime : Int
  jobID : Int
  jobName : String
deriving DecidableEq

/-- The mutable state of timelapseSvc (tlRunning, timelapse) together with
the package-global rpicamMutex; `rpicamHeld` is its state between poll
ticks / calls. -/
structure SvcState where
  tlRunning : Bool
  timelapse : Option Timelapse
  rpicamHeld : Bool
deriving DecidableEq

/-- The freshly constructed service: zero values, mutex free. -/
def initState : SvcState :=
  { tlRunning := false, timelapse := none, rpicamHeld := false }

/-- One step of the progress-waiting sub-loop's environment: either the
enclosing context is cancelled before the next poll, or a poll happens
(`none` = JobStatus error, for which the code substitutes `&Status{}`). -/
inductive WaitPoll
  | cancelled
  | polled (result : Option Status)
deriving DecidableEq

/-- The `for { if status.Progress > 0 break ... }` sub-loop of
startTimelapse: returns the first polled status with positive progress, or
`none` when the context is cancelled (return without starting).  An
exhausted oracle list means the loop is still waiting; no session arises
within the modelled trace, so it is also `none`. -/
def waitForProgress (status : Status) (polls : List WaitPoll) : Option Status :=
  if status.progress > 0 then some status
  else
    match polls with
    | [] => none
    | .cancelled :: _ => none
    | .polled r :: rest => waitForProgress (r.getD zeroStatus) rest

/-- Environment of one startTimelapse call: the os.MkdirTemp outcome
(`none` = error), the oracle for the progress-waiting sub-loop, whether
cmd.Start() succeeds, and time.Now() at session creation. -/
structure StartEnv where
  tmpDir : Option String
  polls : List WaitPoll
  cmdStartOk : Bool
  now : Int
deriving DecidableEq

/-- Environment of one finishTimelapse call: the os.ReadDir outcome for the
session directory and whether the takeLastShot hero-frame step succeeds. -/
structure FinishEnv where
  readDir : Option (List DirEntry)
  heroShotOk : Bool
deriving DecidableEq

/-- startTimelapse (mutex already held by the caller).  MkdirTemp failure,
context cancellation while waiting for progress, and cmd.Start() failure
each return without creating a session.  rpicamMutex is taken just before
spawning the capture process and released by `defer rpicamMutex.Unlock()`
when the function returns, so it is free again in the post-state either
way. -/
def startTimelapse (s : SvcState) (status : Status) (env : StartEnv) : SvcState :=
  match env.tmpDir with
  | none => s
  | some dir =>
    match waitForProgress status env.polls with
    | none => s
    | some final =>
      if env.cmdStartOk = false then
        { s with rpicamHeld := false }
      else
        { s with
          tlRunning := true,
          timelapse := some
            { currentDir := dir, startTime := env.now,
              jobID := final.jobID, jobName := jobName final },
          rpicamHeld := false }

/-- finishTimelapse: cancels the capture process and waits for it, then
locates the last frame and parses its id; either failure logs and returns
early (the session is left in place).  On success the hero-frame step runs
(its failure is tolerated: "we still can do a timelapse"), buildVideo is
spawned asynchronously, and the session is cleared.  takeLastShot brackets
its capture in rpicamMutex.Lock/deferred Unlock, so the mutex is free in
the post-state.  The panic case (out-of-range index in the scan loop) kills
the process; no further transition is observed, modelled as the state at
the crash. -/
def finishTimelapse (s : SvcState) (tl : Timelapse) (env : FinishEnv) : SvcState :=
  match lastTLShotInternal tl.currentDir env.readDir with
  | .errReadDir => s
  | .errNoShots => s
  | .panicIndexOutOfRange => s
  | .found name _count =>
    match getShotID name with
    | none => s
    | some _id =>
      { s with tlRunning := false, timelapse := none, rpicamHeld := false }

/-- One poll tick's input: either JobStatus returned an error (warn and
return), or a status plus the environments for whichever of start/finish
runs this tick. -/
inductive TickEvent
  | pollErr
  | tick (status : Status) (startEnv : StartEnv) (finishEnv : FinishEnv)

/-- handleTimelapse: one tick of the state machine, run under the service's
write lock.  Not running: offline is a no-op, a START state runs
startTimelapse.  Running: a STOP state runs finishTimelapse (the code
dereferences c.timelapse, which the session invariant keeps non-nil),
anything else continues. -/
def handleTimelapse (s : SvcState) (ev : TickEvent) : SvcState :=
  match ev with
  | .pollErr => s
  | .tick status startEnv finishEnv =>
    if s.tlRunning = false then
      if status.online = false then s
      else if timelapseShouldStart status.state then startTimelapse s status startEnv
      else s
    else
      if timelapseShouldStop status.state then
        match s.timelapse with
        | some tl => finishTimelapse s tl finishEnv
        | none => s
      else s

/-- The machine state after feeding a sequence of poll ticks to a fresh
service. -/
def run (evs : List TickEvent) : SvcState :=
  evs.foldl handleTimelapse initState

/-- Number of live sessions held by the service (the record is a single
nillable pointer). -/
def sessionCount (s : SvcState) : Nat :=
  match s.timelapse with
  | none => 0
  | some _ => 1

/-- Outcome of rpiCamera.takeShot. -/
inductive TakeShotResult
  | deviceBusy
  | captureFailed
  | ok (path : String)
deriving DecidableEq

/-- rpiCamera.takeShot: non-blocking TryLock on rpicamMutex — when the
mutex is held the call fails with "mutex is locked" instead of blocking;
otherwise the capture binary runs (outcome `captureOk`) writing
tmpDir/<unixMicro>.jpg, and the deferred Unlock releases the mutex before
returning. -/
def takeShot (rpicamHeld : Bool) (tmpDir : String) (nowMicro : Int)
    (captureOk : Bool) : TakeShotResult :=
  if rpicamHeld then .deviceBusy
  else if captureOk then .ok (tmpDir ++ "/" ++ intDecimal nowMicro ++ ".jpg")
  else .captureFailed

/-- Outcome of timelapseSvc.LastTLShot. -/
inductive LastShotResult
  | ok (name : String)
  | err
  | panicOOB
deriving DecidableEq

/-- timelapseSvc.LastTLShot: errors when the session pointer is nil,
otherwise scans the session's working directory. -/
def LastTLShot (s : SvcState) (readDir : Option (List DirEntry)) : LastShotResult :=
  match s.timelapse with
  | none => .err
  | some tl =>
    match lastTLShotInternal tl.currentDir readDir with
    | .found name _ => .ok name
    | .panicIndexOutOfRange => .panicOOB
    | .errReadDir => .err
    | .errNoShots => .err

/-- Which path rpiCamera.Snapshot took and what it produced; the
`fromStill`/`stillBusy`/`stillFailed` constructors are the takeShot
(single-shot capture) path, the others the LastTLShot path. -/
inductive SnapshotResult
  | fromStill (path : String)
  | stillBusy
  | stillFailed
  | fromSession (path : String)
  | sessionErr
  | sessionPanic
deriving DecidableEq

/-- rpiCamera.Snapshot: when isTimelapseRunning() is false, take a single
shot (TryLock inside takeShot); when a timelapse is running, return the
path LastTLShot finds in the session directory.  The final os.ReadFile of
the chosen path is abstracted: the result carries the path read. -/
def Snapshot (s : SvcState) (tmpDir : String) (nowMicro : Int) (captureOk : Bool)
    (readDir : Option (List DirEntry)) : SnapshotResult :=
  if s.tlRunning = false then
    match takeShot s.rpicamHeld tmpDir nowMicro captureOk with
    | .deviceBusy => .stillBusy
    | .captureFailed => .stillFailed
    | .ok p => .fromStill p
  else
    match LastTLShot s readDir with
    | .ok name => .fromSession name
    | .err => .sessionErr
    | .panicOOB => .sessionPanic

/-- True when a Snapshot outcome came from the single-shot capture path
(capture spawned, or arbitration-lock acquisition at least attempted). -/
def usesStillPath (r : SnapshotResult) : Bool :=
  match r with
  | .fromStill _ => true
  | .stillBusy => true
  | .stillFailed => true
  | .fromSession _ => false
  | .sessionErr => false
  | .sessionPanic => false

/-- buildVideo's frame-rate computation: `fps := count / VideoLenght;
fps = max(fps, MinFPS)`.  count is len(files) and the two config fields are
positive in every intended configuration, so the Go ints are modelled as
Nat; Go integer division on non-negative operands is Nat floor division. -/
def buildVideoFPS (count videoLenght minFPS : Nat) : Nat :=
  max (count / videoLenght) minFPS

/-! Concrete inputs used by counterexamples and witnesses. -/

/-- A status poll reporting an online printer mid-print. -/
def printingStatus : Status :=
  { online := true, jobID := 7, fileName := "f.gcode", state := StatusPrinting, progress := 1 }

/-- A status poll reporting a finished print (a STOP state). -/
def finishedStatus : Status :=
  { online := true, jobID := 7, fileName := "f.gcode", state := StatusFinished, progress := 100 }

/-- A start environment in which everything succeeds. -/
def startEnvOK : StartEnv :=
  { tmpDir := some "/tmp/timelapse7", polls := [], cmdStartOk := true, now := 100 }

/-- A finish environment that is never reached (tick that starts). -/
def noFinishEnv : FinishEnv := { readDir := none, heroShotOk := true }

/-- A tick that drives a fresh machine into a running session. -/
def startTick : TickEvent := .tick printingStatus startEnvOK noFinishEnv

/-- A stop tick whose session directory listing is empty. -/
def stopTickEmptyDir : TickEvent :=
  .tick finishedStatus startEnvOK { readDir := some [], heroShotOk := true }

/-- A session-directory listing holding two capture frames. -/
def framesListing : List DirEntry :=
  [{ name := "image000001.jpg", isDir := false }, { name := "image000002.jpg", isDir := false }]

/-- A finish environment with one frame on disk and a failing hero-frame step. -/
def goodFinishEnv : FinishEnv :=
  { readDir := some [{ name := "image000001.jpg", isDir := false }], heroShotOk := false }

/-- The session record built by startTick. -/
def session1 : Timelapse :=
  { currentDir := "/tmp/timelapse7", startTime := 100, jobID := 7, jobName := "f.gcode" }

/-- A 200 response whose body parses to a mid-print job. -/
def printingOutcome : HTTPOutcome :=
  .resp 200 (.ok { id := 3, state := StatusPrinting, progress := 50, fileDisplayName := "a.gcode" })

/-- First status poll, on a fresh client at time 0. -/
def cacheCall1 : JobStatusCall := JobStatus emptyCache 0 printingOutcome

/-- Second status poll, 5 seconds later (well within the 10-second TTL). -/
def cacheCall2 : JobStatusCall := JobStatus cacheCall1.cache 5 printingOutcome

/-! Session invariant of the state machine. -/

/-- The running flag is true exactly when the session record is non-nil. -/
def SessionInv (s : SvcState) : Prop :=
  s.tlRunning = true ↔ s.timelapse.isSome = true

lemma startTimelapse_inv (s : SvcState) (status : Status) (env : StartEnv)
    (h : SessionInv s) : SessionInv (startTimelapse s status env) := by
  unfold startTimelapse
  cases env.tmpDir with
  | none => exact h
  | some dir =>
    cases waitForProgress status env.polls with
    | none => exact h
    | some final =>
      by_cases hc : env.cmdStartOk = false
      · simpa [hc, SessionInv] using h
      · simp [hc, SessionInv]

lemma finishTimelapse_inv (s : SvcState) (tl : Timelapse) (env : FinishEnv)
    (h : SessionInv s) : SessionInv (finishTimelapse s tl env) := by
  unfold finishTimelapse
  cases hscan : lastTLShotInternal tl.currentDir env.readDir with
  | found name count =>
    cases hid : getShotID name with
    | none => simpa [hid] using h
    | some id => simp [hid, SessionInv]
  | errReadDir => simpa using h
  | errNoShots => simpa using h
  | panicIndexOutOfRange => simpa using h

lemma handleTimelapse_inv (s : SvcState) (ev : TickEvent) (h : SessionInv s) :
    SessionInv (handleTimelapse s ev) := by
  cases ev with
  | pollErr => exact h
  | tick status stEnv finEnv =>
    unfold handleTimelapse
    cases htl : s.tlRunning with
    | false =>
      simp only [htl]
      by_cases ho : status.online = false
      · simpa [ho] using h
      · by_cases hs : timelapseShouldStart status.state = true
        · simpa [ho, hs] using startTimelapse_inv s status stEnv h
        · simpa [ho, hs] using h
    | true =>
      simp only [htl]
      by_cases hst : timelapseShouldStop status.state = true
      · cases hses : s.timelapse with
        | none => simpa [hst, hses] using h
        | some tl => simpa [hst, hses] using finishTimelapse_inv s tl finEnv h
      · simpa [hst] using h

lemma foldl_inv (evs : List TickEvent) (s : SvcState) (h : SessionInv s) :
    SessionInv (evs.foldl handleTimelapse s) := by
  induction evs generalizing s with
  | nil => exact h
  | cons e t ih => exact ih _ (handleTimelapse_inv s e h)

/-- C1: For every sequence of poll ticks fed to the timelapse state machine,
a session exists if and only if the machine is running a time-lapse (the
tlRunning flag is true exactly when the timelapse record is non-nil), and at
most one session exists at any time; every transition (start, finish, no-op
tick) preserves this. -/
theorem claim_C1_session_invariant (evs : List TickEvent) :
    ((run evs).tlRunning = true ↔ (run evs).timelapse.isSome = true) ∧
    sessionCount (run evs) ≤ 1 := by
  constructor
  · exact foldl_inv evs initState (by simp [SessionInv, initState])
  · cases h : (run evs).timelapse <;> simp [sessionCount, h]

/-! Arbitration-lock ownership across poll ticks. -/

lemma startTimelapse_rpicamHeld (s : SvcState) (status : Status) (env : StartEnv)
    (h : s.rpicamHeld = false) : (startTimelapse s status env).rpicamHeld = false := by
  unfold startTimelapse
  cases env.tmpDir with
  | none => exact h
  | some dir =>
    cases waitForProgress status env.polls with
    | none => exact h
    | some final =>
      by_cases hc : env.cmdStartOk = false
      · simp [hc]
      · simp [hc]

lemma finishTimelapse_rpicamHeld (s : SvcState) (tl : Timelapse) (env : FinishEnv)
    (h : s.rpicamHeld = false) : (finishTimelapse s tl env).rpicamHeld = false := by
  unfold finishTimelapse
  cases hscan : lastTLShotInternal tl.currentDir env.readDir with
  | found name count =>
    cases hid : getShotID name with
    | none => simpa [hid] using h
    | some id => simp [hid]
  | errReadDir => simpa using h
  | errNoShots => simpa using h
  | panicIndexOutOfRange => simpa using h

lemma handleTimelapse_rpicamHeld (s : SvcState) (ev : TickEvent)
    (h : s.rpicamHeld = false) : (handleTimelapse s ev).rpicamHeld = false := by
  cases ev with
  | pollErr => exact h
  | tick status stEnv finEnv =>
    unfold handleTimelapse
    cases htl : s.tlRunning with
    | false =>
      by_cases ho : status.online = false
      · simpa [ho] using h
      · by_cases hs : timelapseShouldStart status.state = true
        · simpa [ho, hs] using startTimelapse_rpicamHeld s status stEnv h
        · simpa [ho, hs] using h
    | true =>
      by_cases hst : timelapseShouldStop status.state = true
      · cases hses : s.timelapse with
        | none => simpa [hst, hses] using h
        | some tl => simpa [hst, hses] using finishTimelapse_rpicamHeld s tl finEnv h
      · simpa [hst] using h

lemma run_rpicamHeld (evs : List TickEvent) : (run evs).rpicamHeld = false := by
  suffices h : ∀ s : SvcState, s.rpicamHeld = false →
      (evs.foldl handleTimelapse s).rpicamHeld = false from
    h initState rfl
  induction evs with
  | nil => intro s hs; exact hs
  | cons e t ih => intro s hs; exact ih _ (handleTimelapse_rpicamHeld s e hs)

/-- C2 counterexample: after one tick that successfully starts a time-lapse
the session is active and the capture process is running, yet rpicamMutex is
free (startTimelapse released it via its deferred Unlock on return), and a
still-shot takeShot succeeds in TryLock and spawns a second capture
process — refuting lock ownership for the session's lifetime. -/
theorem claim_C2_lock_free_while_session_active :
    (run [startTick]).tlRunning = true ∧
    (run [startTick]).timelapse.isSome = true ∧
    (run [startTick]).rpicamHeld = false ∧
    takeShot (run [startTick]).rpicamHeld "/tmp/x" 0 true = .ok "/tmp/x/0.jpg" := by
  decide

/-- C2 (amended): the arbitration lock is not owned for the lifetime of the
time-lapse capture process — it is acquired and released inside each
capture-binary invocation and inside the start transition, so between poll
ticks it is always free; exclusion of still-shot captures during an active
session is enforced instead by the Snapshot path's running-session check,
which never enters the still-capture path (and hence never touches the
lock) while a session is running. -/
theorem claim_C2_lock_scoped (evs : List TickEvent) (tmpDir : String)
    (nowMicro : Int) (captureOk : Bool) (readDir : Option (List DirEntry))
    (h : (run evs).tlRunning = true) :
    (run evs).rpicamHeld = false ∧
    usesStillPath (Snapshot (run evs) tmpDir nowMicro captureOk readDir) = false := by
  refine ⟨run_rpicamHeld evs, ?_⟩
  unfold Snapshot
  simp only [h]
  cases LastTLShot (run evs) readDir <;> simp [usesStillPath]

/-- Witness for the amended C2 at a concrete running state. -/
theorem claim_C2_lock_scoped_witness :
    (run [startTick]).rpicamHeld = false ∧
    usesStillPath (Snapshot (run [startTick]) "/t" 0 true none) = false :=
  claim_C2_lock_scoped [startTick] "/t" 0 true none (by decide)

/-- C3: the status cache never serves a hit.  jobStatusFromCache evicts the
entry whenever `cachedTime < now + 10s`, which holds for every entry written
in the past, so a second poll 5 seconds after a successful first poll —
well within the 10-second TTL, with no intervening failure — finds the
freshly written entry evicted and issues a second remote call, contradicting
"at most one remote call is made for the pair". -/
theorem claim_C3_second_call_hits_remote :
    cacheCall1.remoteCalled = true ∧
    cacheCall1.cache.cachedStatus.isSome = true ∧
    cacheCall2.remoteCalled = true ∧
    (jobStatusFromCache cacheCall1.cache 5).2 = none := by
  refine ⟨rfl, by decide, ?_, by decide⟩
  have : cacheCall2 = JobStatus cacheCall1.cache 5 printingOutcome := rfl
  rw [this]
  decide

/-- C4: a status-source timeout (context.DeadlineExceeded from the HTTP
round-trip) yields `Status{Online:false}` with every other field
zero-valued and a nil error; a timeout is never surfaced as a failure. -/
theorem claim_C4_timeout_is_offline :
    jobStatus .timeout =
      .ok { online := false, jobID := 0, fileName := "", state := "", progress := 0 } :=
  rfl

/-- C5 counterexample: a STOP state observed while running performs the
Finishing transition, but with an empty session directory the
locate-last-frame step fails and finishTimelapse returns early — the
session is NOT cleared (tlRunning stays true, the record stays non-nil),
refuting "the session is always cleared regardless of whether any
post-capture pipeline step fails". -/
theorem claim_C5_locate_failure_keeps_session :
    (run [startTick, stopTickEmptyDir]).tlRunning = true ∧
    (run [startTick, stopTickEmptyDir]).timelapse.isSome = true := by
  decide

/-- C5 (amended): when the state machine observes a STOP state while a
session is running, the session is cleared (tlRunning set false, record set
to nil) provided locating the last frame and parsing its sequence id
succeed; failure of the hero-frame duplication or encoding steps does not
prevent the clearing (the finish environment is arbitrary here, including a
failing hero-frame step), but if locating or parsing fails the transition
returns early and the session remains in place. -/
theorem claim_C5_finish_clears_session (s : SvcState) (tl : Timelapse)
    (status : Status) (stEnv : StartEnv) (finEnv : FinishEnv)
    (name : String) (count : Nat) (id : Int)
    (hrun : s.tlRunning = true) (hses : s.timelapse = some tl)
    (hstop : timelapseShouldStop status.state = true)
    (hfound : lastTLShotInternal tl.currentDir finEnv.readDir = .found name count)
    (hid : getShotID name = some id) :
    (handleTimelapse s (.tick status stEnv finEnv)).tlRunning = false ∧
    (handleTimelapse s (.tick status stEnv finEnv)).timelapse = none := by
  unfold handleTimelapse
  simp only [hrun, hstop, hses]
  unfold finishTimelapse
  simp [hfound, hid]

/-- Witness for the amended C5: a stop tick with one frame on disk and a
failing hero-frame step still clears the session. -/
theorem claim_C5_finish_clears_session_witness :
    (handleTimelapse (run [startTick]) (.tick finishedStatus startEnvOK goodFinishEnv)).tlRunning = false ∧
    (handleTimelapse (run [startTick]) (.tick finishedStatus startEnvOK goodFinishEnv)).timelapse = none :=
  claim_C5_finish_clears_session (run [startTick]) session1 finishedStatus startEnvOK
    goodFinishEnv "/tmp/timelapse7/image000001.jpg" 1 1
    (by decide) (by decide) (by decide) (by decide) (by decide)

/-- C6: the find-last-frame scan (`for i := len(files)-1; i >= 0; i++`)
increments its loop index, so whenever the lexically last directory entry is
not a .jpg file the next iteration indexes files[len(files)] — an
out-of-range panic — even though a .jpg frame is present in the listing and
the claim requires it to be returned.  (With an empty listing the loop is
skipped and the no-shots error is returned, as claimed.) -/
theorem claim_C6_scan_panics_on_trailing_entry :
    lastTLShotInternal "d"
        (some [{ name := "image000001.jpg", isDir := false },
               { name := "zzz.txt", isDir := false }]) = .panicIndexOutOfRange ∧
    hasSuffix "image000001.jpg" ".jpg" = true ∧
    lastTLShotInternal "d" (some []) = .errNoShots := by
  decide

/-! Helper facts for the snapshot-while-running claim. -/

lemma stringLe_refl (s : String) : stringLe s s = true := by
  simp [stringLe]

lemma drop_length_sub_one {α : Type} (l : List α) (h : l ≠ []) :
    l.drop (l.length - 1) = [l.getLast h] := by
  induction l with
  | nil => exact absurd rfl h
  | cons a t ih =>
    cases t with
    | nil => rfl
    | cons b t' =>
      have hne : b :: t' ≠ [] := by simp
      have hlen : (a :: b :: t').length - 1 = ((b :: t').length - 1) + 1 := by
        simp
      rw [hlen, List.drop_succ_cons, ih hne, List.getLast_cons hne]

lemma pairwise_names_le_getLast (l : List DirEntry) (hne : l ≠ [])
    (h : l.Pairwise (fun a b => stringLe a.name b.name = true)) :
    ∀ f ∈ l, stringLe f.name (l.getLast hne).name = true := by
  induction l with
  | nil => exact absurd rfl hne
  | cons a t ih =>
    intro f hf
    rcases List.pairwise_cons.mp h with ⟨ha, ht⟩
    cases t with
    | nil =>
      rcases List.mem_cons.mp hf with rfl | hf'
      · exact stringLe_refl _
      · simp at hf'
    | cons b t' =>
      have hne' : b :: t' ≠ [] := by simp
      rw [List.getLast_cons hne']
      rcases List.mem_cons.mp hf with rfl | hf'
      · exact ha _ (List.getLast_mem hne')
      · exact ih hne' ht f hf'

/-- C7: for every call to Snapshot made while a time-lapse session is
running, the single-shot capture path is never invoked (takeShot is not
reached, so no capture process is spawned and no TryLock on rpicamMutex is
attempted), and whenever the call selects a frame, that frame is the
lexically last directory entry inside the active session's working
directory — under the sorted listing os.ReadDir returns and the session's
`image%06d.jpg` numbering, the most recently written frame. -/
theorem claim_C7_snapshot_bypasses_capture (s : SvcState) (tmpDir : String)
    (nowMicro : Int) (captureOk : Bool) (files : List DirEntry)
    (hrun : s.tlRunning = true)
    (hsorted : files.Pairwise (fun a b => stringLe a.name b.name = true)) :
    (∀ readDir, usesStillPath (Snapshot s tmpDir nowMicro captureOk readDir) = false) ∧
    (∀ p, Snapshot s tmpDir nowMicro captureOk (some files) = .fromSession p →
      ∃ tl e, s.timelapse = some tl ∧ files.getLast? = some e ∧
        p = tl.currentDir ++ "/" ++ e.name ∧ hasSuffix e.name ".jpg" = true ∧
        e.isDir = false ∧ ∀ f ∈ files, stringLe f.name e.name = true) := by
  constructor
  · intro readDir
    unfold Snapshot
    simp only [hrun]
    cases LastTLShot s readDir <;> simp [usesStillPath]
  · intro p hp
    unfold Snapshot at hp
    simp only [hrun, Bool.true_eq_false, if_false] at hp
    cases hls : LastTLShot s (some files) with
    | err => rw [hls] at hp; simp at hp
    | panicOOB => rw [hls] at hp; simp at hp
    | ok name =>
      rw [hls] at hp
      simp only [SnapshotResult.fromSession.injEq] at hp
      subst hp
      cases hses : s.timelapse with
      | none => simp [LastTLShot, hses] at hls
      | some tl =>
        simp only [LastTLShot, hses] at hls
        refine ⟨tl, ?_⟩
        cases hscan : lastTLShotInternal tl.currentDir (some files) with
        | errReadDir => rw [hscan] at hls; simp at hls
        | errNoShots => rw [hscan] at hls; simp at hls
        | panicIndexOutOfRange => rw [hscan] at hls; simp at hls
        | found name' total =>
          rw [hscan] at hls
          simp only [LastShotResult.ok.injEq] at hls
          subst hls
          simp only [lastTLShotInternal] at hscan
          by_cases hlen : files.length = 0
          · simp [hlen] at hscan
          · rw [if_neg hlen] at hscan
            have hne : files ≠ [] := by
              intro hnil; exact hlen (by simp [hnil])
            rw [drop_length_sub_one files hne] at hscan
            unfold lastTLShotLoop at hscan
            by_cases hcond :
                (!(files.getLast hne).isDir &&
                  hasSuffix (files.getLast hne).name ".jpg") = true
            · rw [if_pos hcond] at hscan
              simp only [ScanResult.found.injEq] at hscan
              have hcc := hcond
              simp only [Bool.and_eq_true] at hcc
              rcases hcc with ⟨hdir, hjpg⟩
              refine ⟨files.getLast hne, rfl,
                List.getLast?_eq_getLast_of_ne_nil hne, hscan.1.symm, hjpg,
                by simpa using hdir, pairwise_names_le_getLast files hne hsorted⟩
            · rw [if_neg hcond] at hscan
              unfold lastTLShotLoop at hscan
              simp at hscan

/-- Witness for C7 at a concrete running state with a two-frame listing. -/
theorem claim_C7_snapshot_bypasses_capture_witness :
    (∀ readDir, usesStillPath (Snapshot (run [startTick]) "/t" 0 true readDir) = false) ∧
    (∀ p, Snapshot (run [startTick]) "/t" 0 true (some framesListing) = .fromSession p →
      ∃ tl e, (run [startTick]).timelapse = some tl ∧ framesListing.getLast? = some e ∧
        p = tl.currentDir ++ "/" ++ e.name ∧ hasSuffix e.name ".jpg" = true ∧
        e.isDir = false ∧ ∀ f ∈ framesListing, stringLe f.name e.name = true) :=
  claim_C7_snapshot_bypasses_capture (run [startTick]) "/t" 0 true framesListing
    (by decide) (by decide)

/-- C8: the hero-frame duplication step does not use the session's
zero-padded `image%06d.jpg` naming scheme: shotFilename formats with the
space-padded verb `image%6d.jpg`, so the duplicated frame names differ from
the captured scheme's names and sort lexically BEFORE every zero-padded
captured frame (space 0x20 < '0' 0x30) instead of following them — here the
duplicate for sequence number 6 sorts before captured frame 5.  The cp loop
also starts at lastID itself, not the next number. -/
theorem claim_C8_hero_frames_not_zero_padded :
    shotFilename "d" 6 = "d/image     6.jpg" ∧
    captureFrameName 6 = "image000006.jpg" ∧
    shotFilename "d" 6 ≠ "d/" ++ captureFrameName 6 ∧
    stringLt (shotFilename "d" 6) ("d/" ++ captureFrameName 5) = true ∧
    takeLastShotNames "d" 5 2 =
      ["d/image     5.jpg", "d/image     6.jpg", "d/image     7.jpg"] := by
  decide

/-- C9: for all positive frameCount, targetVideoLengthSeconds and
minimumFPS, the encoding frame rate computed by buildVideo equals
max(floor(frameCount / targetVideoLengthSeconds), minimumFPS) — Go integer
division on the non-negative operands is floor division — and in particular
frameCount=240, targetVideoLengthSeconds=7, minimumFPS=12 gives fps=34. -/
theorem claim_C9_fps_formula (count videoLenght minFPS : Nat)
    (hc : 0 < count) (ht : 0 < videoLenght) (hm : 0 < minFPS) :
    buildVideoFPS count videoLenght minFPS =
      max (Nat.floor ((count : ℚ) / (videoLenght : ℚ))) minFPS ∧
    buildVideoFPS 240 7 12 = 34 := by
  constructor
  · rw [buildVideoFPS, Nat.floor_div_nat, Nat.floor_natCast]
  · decide

/-- Witness for C9 at the inputs named by the claim. -/
theorem claim_C9_fps_formula_witness :
    buildVideoFPS 240 7 12 = max (Nat.floor ((240 : ℚ) / (7 : ℚ))) 12 ∧
    buildVideoFPS 240 7 12 = 34 :=
  claim_C9_fps_formula 240 7 12 (by decide) (by decide) (by decide)

/-- C10: a 204 response (no job in progress) yields a nil error and a
status with online=true and state=FINISHED, whose state is in the STOP
classification, so a running time-lapse observing it takes the Finishing
transition: fed to a machine with an active session, the tick clears the
running flag. -/
theorem claim_C10_http204_finished (parsed : Except Unit JobResponse) :
    jobStatus (.resp 204 parsed) =
      .ok { online := true, jobID := 0, fileName := "",
            state := StatusFinished, progress := 0 } ∧
    timelapseShouldStop StatusFinished = true ∧
    (handleTimelapse (run [startTick])
      (.tick { online := true, jobID := 0, fileName := "",
               state := StatusFinished, progress := 0 }
        startEnvOK goodFinishEnv)).tlRunning = false :=
  ⟨rfl, by decide, by decide⟩

end PrusaCam
